import Mathlib

/-!
# Verification of the supervisord process-supervision core

Shallow embedding of `src/supervisor/supervisord.py` (classes `Subprocess`
and `Supervisor`, and the helper `find_prefix_at_end`).  Wall-clock times,
pids and counters are modelled as `Int` (Python numbers with truthiness
`x ≠ 0`); Python `None`-able fields become `Option`; byte strings become
`List Char`.  Side effects on the outside world (signals sent via
`os.kill`, events published via `notify`) are returned explicitly.
-/

set_option maxRecDepth 10000

namespace Supervisord

/-- The eight process states of class `ProcessStates` with their numeric
codes from the source. -/
inductive ProcessState
  | STOPPED
  | STARTING
  | RUNNING
  | BACKOFF
  | STOPPING
  | EXITED
  | FATAL
  | UNKNOWN
  deriving DecidableEq, Repr

/-- Numeric codes assigned in class `ProcessStates`. -/
def ProcessState.code : ProcessState → Nat
  | .STOPPED => 0
  | .STARTING => 10
  | .RUNNING => 20
  | .BACKOFF => 30
  | .STOPPING => 40
  | .EXITED => 100
  | .FATAL => 200
  | .UNKNOWN => 1000

/-- The fields of a `ProcessConfig` that `Subprocess` in `supervisord.py`
reads (`config.name`, `config.startsecs`, `config.startretries`,
`config.exitcodes`, `config.stopsignal`, `config.stopwaitsecs`,
`config.autostart`, `config.autorestart`, `config.priority`,
`config.eventlogfile`). -/
structure ProcessConfig where
  name : String
  priority : Int
  autostart : Bool
  autorestart : Bool
  startsecs : Int
  startretries : Int
  exitcodes : List Int
  stopsignal : Int
  stopwaitsecs : Int
  eventlogfile : Bool
  deriving DecidableEq, Repr

/-- Mutable state of one `Subprocess` (the control-flow fields; the
output-logging fields `logbuffer`/`eventmode`/childlog live in
`OutputState` below, which `drain`/`log_output` operate on).  Python's
integer flags `killing`, `administrative_stop`, `system_stop` are modelled
as `Bool` (code only tests their truthiness and stores 0/1). -/
structure Subprocess where
  config : ProcessConfig
  pid : Int
  laststart : Int
  laststop : Int
  delay : Int
  backoff : Int
  killing : Bool
  administrative_stop : Bool
  system_stop : Bool
  exitstatus : Option Int
  spawnerr : Option String
  deriving DecidableEq, Repr

/-- `Subprocess.get_state` from `supervisord.py`: the derived process
state, a cascade over the stored fields. -/
def Subprocess.get_state (p : Subprocess) : ProcessState :=
  if p.laststart = 0 then ProcessState.STOPPED
  else if p.killing then ProcessState.STOPPING
  else if p.system_stop then ProcessState.FATAL
  else if p.exitstatus.isSome then
    if p.administrative_stop then ProcessState.STOPPED
    else ProcessState.EXITED
  else if p.delay ≠ 0 then
    if p.pid ≠ 0 then ProcessState.STARTING
    else ProcessState.BACKOFF
  else if p.pid ≠ 0 then ProcessState.RUNNING
  else ProcessState.UNKNOWN

/-- Python `repr` of a simple string (no quotes or escapes inside), as
produced by the `%r` format used in the spawn error messages. -/
def pyrepr (s : String) : String := "'" ++ s ++ "'"

/-- `errno.errorcode.get(code, code)`: symbolic errno name with the numeric
code as fallback (only EMFILE = 24 and EAGAIN = 11 matter to the source). -/
def errorcodeName (c : Int) : String :=
  if c = 24 then "EMFILE" else if c = 11 then "EAGAIN" else toString c

/-- errno.EMFILE. -/
def EMFILE : Int := 24

/-- errno.EAGAIN. -/
def EAGAIN : Int := 11

/-- Modelled from the spec: `signame` lives in `supervisor/options.py`,
whose version in the repository predates it; it maps a signal number to
its symbolic name ("stopsignal (name or number)"). -/
def signame (sig : Int) : String :=
  if sig = 15 then "SIGTERM"
  else if sig = 9 then "SIGKILL"
  else if sig = 2 then "SIGINT"
  else if sig = 1 then "SIGHUP"
  else toString sig

/-- `Subprocess.record_spawnerr(msg)`: records the failure text, bumps the
backoff counter and schedules the retry delay (`delay = now + backoff`
with the already-incremented backoff). -/
def Subprocess.record_spawnerr (p : Subprocess) (now : Int) (msg : String) :
    Subprocess :=
  { p with spawnerr := some msg,
           backoff := p.backoff + 1,
           delay := now + (p.backoff + 1) }

/-- Outcome of the environment-dependent part of `spawn()`: either
`check_execv_args` failed with a message (command not found / not
executable), `make_pipes` raised `OSError(code)`, `fork` raised
`OSError(code)`, or the fork succeeded and the parent saw `childPid`.
(The child branch of the fork execs or `_exit(127)`s and never returns to
the caller, so only the parent side is modelled.) -/
inductive SpawnResult
  | checkFail (msg : String)
  | pipeError (code : Int)
  | forkError (code : Int)
  | forked (childPid : Int)
  deriving DecidableEq, Repr

/-- Result of `Subprocess.spawn()`: the updated process, the value the
call returns (`None` on failure), and the pid recorded into
`options.pidhistory`, if any. -/
structure SpawnEffect where
  proc : Subprocess
  ret : Option Int
  pidhistoryAdd : Option Int
  deriving DecidableEq, Repr

/-- `Subprocess.spawn()` (parent side).  If a child is already running the
call is a no-op returning `None`.  Otherwise the stop/err flags are
cleared and `laststart` set to `now` first; then the failure surface:
`check_execv_args` message, `make_pipes` `OSError` (EMFILE → "too many
open files to spawn 'name'"), `fork` `OSError` (EAGAIN → "Too many
processes in process table to spawn 'name'"), each via `record_spawnerr`;
on success `pid` is installed, `delay = now + startsecs`, and the pid is
recorded in `pidhistory`. -/
def Subprocess.spawn (p : Subprocess) (now : Int) (res : SpawnResult) :
    SpawnEffect :=
  if p.pid ≠ 0 then ⟨p, none, none⟩
  else
    let q : Subprocess :=
      { p with killing := false, spawnerr := none, exitstatus := none,
               system_stop := false, administrative_stop := false,
               laststart := now }
    match res with
    | .checkFail msg => ⟨q.record_spawnerr now msg, none, none⟩
    | .pipeError code =>
        let msg := if code = EMFILE
          then "too many open files to spawn " ++ pyrepr p.config.name
          else "unknown error: " ++ errorcodeName code
        ⟨q.record_spawnerr now msg, none, none⟩
    | .forkError code =>
        let msg := if code = EAGAIN
          then "Too many processes in process table to spawn "
                 ++ pyrepr p.config.name
          else "unknown error: " ++ errorcodeName code
        ⟨q.record_spawnerr now msg, none, none⟩
    | .forked childPid =>
        ⟨{ q with pid := childPid, spawnerr := none,
                  delay := now + p.config.startsecs },
         some childPid, some childPid⟩

/-- Result of `Subprocess.kill(sig)` / `Subprocess.stop()`: the updated
process, the return value (`None` for success, an error message string
otherwise) and the `(pid, sig)` arguments actually passed to `os.kill`. -/
structure KillEffect where
  proc : Subprocess
  result : Option String
  sent : List (Int × Int)
  deriving DecidableEq, Repr

/-- `Subprocess.kill(sig)`.  With no live child it returns an error string
and changes nothing; otherwise it sets `killing`, arms
`delay = now + stopwaitsecs` and calls `os.kill(self.pid, sig)` — the
positive child pid, not a process group.  `raised` injects the
environment's behaviour of `os.kill`: `none` for success, `some tb` for an
exception with traceback text `tb` (then `pid`, `killing`, `delay` are
zeroed and an error message returned). -/
def Subprocess.kill (p : Subprocess) (now : Int) (sig : Int)
    (raised : Option String) : KillEffect :=
  if p.pid = 0 then
    ⟨p, some ("attempted to kill " ++ p.config.name ++ " with sig "
              ++ signame sig ++ " but it wasn't running"), []⟩
  else
    match raised with
    | some tb =>
        ⟨{ p with pid := 0, killing := false, delay := 0 },
         some ("unknown problem killing " ++ p.config.name ++ " ("
               ++ toString p.pid ++ "):" ++ tb), []⟩
    | none =>
        ⟨{ p with killing := true, delay := now + p.config.stopwaitsecs },
         none, [(p.pid, sig)]⟩

/-- `Subprocess.stop()`: administrative stop — sets `administrative_stop`
and delegates to `kill(config.stopsignal)`. -/
def Subprocess.stop (p : Subprocess) (now : Int) (raised : Option String) :
    KillEffect :=
  Subprocess.kill { p with administrative_stop := true } now
    p.config.stopsignal raised

/-- `Subprocess.finish(pid, sts)` (state bookkeeping; the initial
`drain()`/`log_output()` calls touch only the output-logging state and are
modelled separately by `OutputState.log_output`).  `es` is the exit code
decoded by `decode_wait_status(sts)` (that helper lives in
`supervisor/options.py`, absent from this version of the repository, so
the decoded code is taken as the input).  Classifies the death as stop
requested / expected / unexpected, updates `exitstatus`, `backoff`,
`delay`, `spawnerr` accordingly, and clears `pid`. -/
def Subprocess.finish (p : Subprocess) (now : Int) (es : Int) : Subprocess :=
  let tooquickly := now - p.laststart < p.config.startsecs
  let badexit := ¬ (es ∈ p.config.exitcodes)
  let expected := ¬ (tooquickly ∨ badexit)
  let p1 := { p with laststop := now }
  let p2 :=
    if p.killing then
      { p1 with killing := false, delay := 0, exitstatus := some es }
    else if expected then
      { p1 with delay := 0, backoff := 0, exitstatus := some es }
    else
      { p1 with exitstatus := none,
                backoff := p.backoff + 1,
                delay := now + (p.backoff + 1),
                spawnerr := some (if tooquickly then
                    "Exited too quickly (process log may have details)"
                  else "Bad exit code " ++ toString es) }
  { p2 with pid := 0 }

/-- The per-process body of `Supervisor.transition()`: BACKOFF with the
retry budget exhausted goes FATAL (clearing `delay` and `backoff`);
STARTING that has stayed up longer than `startsecs` is promoted to
RUNNING (clearing `delay` and `backoff`); every other state is left
alone. -/
def transitionStep (now : Int) (p : Subprocess) : Subprocess :=
  match p.get_state with
  | ProcessState.BACKOFF =>
      if p.backoff > p.config.startretries then
        { p with delay := 0, backoff := 0, system_stop := true }
      else p
  | ProcessState.STARTING =>
      if now - p.laststart > p.config.startsecs then
        { p with delay := 0, backoff := 0 }
      else p
  | _ => p

/-- The per-process body of `Supervisor.stop_all()`: RUNNING and STARTING
are `stop()`ped; BACKOFF is fast-forwarded to FATAL (`delay`, `backoff`
cleared, `system_stop` set); the rest are left alone. -/
def stopAllStep (now : Int) (raised : Option String) (p : Subprocess) :
    KillEffect :=
  match p.get_state with
  | ProcessState.RUNNING => p.stop now raised
  | ProcessState.STARTING => p.stop now raised
  | ProcessState.BACKOFF =>
      ⟨{ p with delay := 0, backoff := 0, system_stop := true }, none, []⟩
  | _ => ⟨p, none, []⟩

/-- `ProcessCommunicationEvent.BEGIN_TOKEN` (the literal constant quoted
in the spec; `events.py` itself is not part of this snapshot, but the
constant is fixed by the spec and the tests). -/
def BEGIN_TOKEN : List Char := "<!--XSUPERVISOR:BEGIN-->".toList

/-- `ProcessCommunicationEvent.END_TOKEN`. -/
def END_TOKEN : List Char := "<!--XSUPERVISOR:END-->".toList

/-- Descending scan of `find_prefix_at_end`: Python's
`while l and not haystack.endswith(needle[:l]): l -= 1` starting from
`l = len(needle) - 1`. -/
def fpeAux (haystack needle : List Char) : Nat → Nat
  | 0 => 0
  | l + 1 =>
    if (needle.take (l + 1)).isSuffixOf haystack then l + 1
    else fpeAux haystack needle l

/-- `find_prefix_at_end(haystack, needle)` from `supervisord.py`. -/
def find_prefix_at_end (haystack needle : List Char) : Nat :=
  fpeAux haystack needle (needle.length - 1)

/-- `data.split(token, 1)`: split on the first occurrence of `token`,
returning the pieces before and after it; `none` when `token` does not
occur (the Python code lands in the `ValueError` branch of the 2-element
unpacking). -/
def splitOnce (token : List Char) : List Char → Option (List Char × List Char)
  | [] => if token = [] then some ([], []) else none
  | c :: rest =>
    if token.isPrefixOf (c :: rest) then
      some ([], (c :: rest).drop token.length)
    else
      match splitOnce token rest with
      | some (b, a) => some (c :: b, a)
      | none => none

/-- The output-logging state of one `Subprocess`: the `eventmode` flag,
the accumulated `logbuffer`, whether `config.eventlogfile` is set, which
log `childlog` currently references, the byte contents of the main and
event (capture) logs, and the `ProcessCommunicationEvent`s published so
far — recorded as the `(process name, data)` pairs that the `notify`
call site constructs.  A main log file is taken as configured and
`options.strip_ansi` as off. -/
structure OutputState where
  name : String
  eventmode : Bool
  logbuffer : List Char
  eventlogfile : Bool
  childlogIsEvent : Bool
  mainlog : List Char
  eventlog : List Char
  events : List (String × List Char)
  deriving DecidableEq, Repr

/-- `self.childlog.info(data)`: append to whichever log `childlog`
currently references. -/
def writeChildlog (s : OutputState) (data : List Char) : OutputState :=
  if s.childlogIsEvent then { s with eventlog := s.eventlog ++ data }
  else { s with mainlog := s.mainlog ++ data }

/-- `Subprocess.toggle_eventmode()`: flip `eventmode`; when
`config.eventlogfile` is set, entering capture mode points `childlog` at
the event log, and leaving it reads the capture file back — truncating
oversized data to 2MB (`1 << 21` bytes) — publishes
`ProcessCommunicationEvent(name, data)`, clears the capture file and
points `childlog` back at the main log.  Without `eventlogfile` only the
flag flips. -/
def toggle_eventmode (s : OutputState) : OutputState :=
  let s1 : OutputState := { s with eventmode := !s.eventmode }
  if s1.eventlogfile then
    if s1.eventmode then { s1 with childlogIsEvent := true }
    else
      { s1 with events := s1.events ++ [(s1.name, s1.eventlog.take (1 <<< 21))],
                eventlog := [],
                childlogIsEvent := false }
  else s1

/-- `writeChildlog` never touches the buffer of unlogged output. -/
@[simp] theorem writeChildlog_logbuffer (s : OutputState) (d : List Char) :
    (writeChildlog s d).logbuffer = s.logbuffer := by
  unfold writeChildlog
  split_ifs <;> rfl

/-- `splitOnce` really splits: a `some` answer reassembles to the
input. -/
theorem splitOnce_some_eq (token : List Char) :
    ∀ {data b a : List Char}, splitOnce token data = some (b, a) →
      data = b ++ token ++ a := by
  intro data
  induction data with
  | nil =>
      intro b a h
      rw [splitOnce] at h
      split_ifs at h with ht
      · subst ht
        simp_all
  | cons c rest ih =>
      intro b a h
      rw [splitOnce] at h
      split_ifs at h with hpre
      · have hp : token <+: c :: rest := by
          simpa using hpre
        obtain ⟨t, hteq⟩ := hp
        cases h
        simp [← hteq, List.drop_left]
      · split at h
        · next b' a' hrec =>
            cases h
            simp [ih hrec]
        · cases h

/-- `splitOnce` answers `none` exactly when the token does not occur in
the data (for a nonempty token). -/
theorem splitOnce_none_iff (token : List Char) (ht : token ≠ []) :
    ∀ data : List Char,
      splitOnce token data = none ↔ ∀ pre post, data ≠ pre ++ token ++ post := by
  intro data
  induction data with
  | nil =>
      constructor
      · intro _ pre post h
        have hne : pre ++ token ++ post ≠ [] := by
          simp [ht]
        exact hne h.symm
      · intro _
        rw [splitOnce, if_neg ht]
  | cons c rest ih =>
      constructor
      · intro h pre post heq
        rw [splitOnce] at h
        split_ifs at h with hpre
        · split at h
          · cases h
          · next hrec =>
              cases pre with
              | nil =>
                  apply hpre
                  simp only [List.nil_append] at heq
                  have hp : token <+: c :: rest := ⟨post, heq.symm⟩
                  simpa using hp
              | cons c' pre' =>
                  have hrest : rest = pre' ++ token ++ post := by
                    simpa using congrArg List.tail heq
                  exact (ih.mp hrec) pre' post hrest
      · intro h
        rw [splitOnce]
        split_ifs with hpre
        · exfalso
          have hp : token <+: c :: rest := by
            simpa using hpre
          obtain ⟨t, hteq⟩ := hp
          exact h [] t (by simpa using hteq.symm)
        · split
          · next b' a' hrec =>
              exfalso
              have hr := splitOnce_some_eq token hrec
              exact h (c :: b') a' (by simp [hr])
          · rfl

/-- The END token has 22 characters. -/
@[simp] theorem length_END_TOKEN : END_TOKEN.length = 22 := rfl

/-- The BEGIN token has 24 characters. -/
@[simp] theorem length_BEGIN_TOKEN : BEGIN_TOKEN.length = 24 := rfl

/-- The framing token `log_output` currently scans for: `END_TOKEN` in
capture mode (`eventmode`), `BEGIN_TOKEN` otherwise. -/
def currentToken (s : OutputState) : List Char :=
  if s.eventmode then END_TOKEN else BEGIN_TOKEN

/-- The current framing token is nonempty. -/
theorem currentToken_ne_nil (s : OutputState) : currentToken s ≠ [] := by
  unfold currentToken
  cases s.eventmode <;> decide

/-- `Subprocess.log_output()`: drain the buffer.  With no buffered data,
or not more data than one framing token, nothing happens (the data is
retained whole).  Otherwise the buffer is split on the first occurrence
of the current token (`END_TOKEN` while capturing, `BEGIN_TOKEN`
otherwise): if the token does not occur, the longest tail of the data
matching a proper prefix of the token (`find_prefix_at_end`) is retained
in the buffer and the rest is written to `childlog`; if it occurs,
`toggle_eventmode()` runs, the text after the token becomes the new
buffer, the text before the token is written to the (post-toggle!)
`childlog`, and the drain recurses on the remainder. -/
def log_output (s : OutputState) : OutputState :=
  if s.logbuffer = [] then s
  else if s.logbuffer.length ≤ (currentToken s).length then s
  else
    match h : splitOnce (currentToken s) s.logbuffer with
    | none =>
        let index := find_prefix_at_end s.logbuffer (currentToken s)
        writeChildlog
          { s with logbuffer := s.logbuffer.drop (s.logbuffer.length - index) }
          (s.logbuffer.take (s.logbuffer.length - index))
    | some (before, after) =>
        let s2 := writeChildlog { toggle_eventmode s with logbuffer := after }
          before
        if after = [] then s2 else log_output s2
  termination_by s.logbuffer.length
  decreasing_by
    simp only [writeChildlog_logbuffer]
    have hd := splitOnce_some_eq _ h
    have hlen := congrArg List.length hd
    simp only [List.length_append] at hlen
    have htl : 0 < (currentToken s).length :=
      List.length_pos.mpr (currentToken_ne_nil s)
    omega

/-- `writeChildlog` leaves `eventmode` alone. -/
@[simp] theorem writeChildlog_eventmode (s : OutputState) (d : List Char) :
    (writeChildlog s d).eventmode = s.eventmode := by
  unfold writeChildlog
  split_ifs <;> rfl

/-- `writeChildlog` publishes no events. -/
@[simp] theorem writeChildlog_events (s : OutputState) (d : List Char) :
    (writeChildlog s d).events = s.events := by
  unfold writeChildlog
  split_ifs <;> rfl

/-- `writeChildlog` leaves the childlog selection alone. -/
@[simp] theorem writeChildlog_childlogIsEvent (s : OutputState)
    (d : List Char) : (writeChildlog s d).childlogIsEvent = s.childlogIsEvent := by
  unfold writeChildlog
  split_ifs <;> rfl

/-- `writeChildlog` leaves the process name alone. -/
@[simp] theorem writeChildlog_name (s : OutputState) (d : List Char) :
    (writeChildlog s d).name = s.name := by
  unfold writeChildlog
  split_ifs <;> rfl

/-- `writeChildlog` leaves the event-log configuration alone. -/
@[simp] theorem writeChildlog_eventlogfile (s : OutputState) (d : List Char) :
    (writeChildlog s d).eventlogfile = s.eventlogfile := by
  unfold writeChildlog
  split_ifs <;> rfl

/-- With `childlog` pointing at the main log, `writeChildlog` appends
there and leaves the event log alone. -/
theorem writeChildlog_main (s : OutputState) (d : List Char)
    (h : s.childlogIsEvent = false) :
    (writeChildlog s d).mainlog = s.mainlog ++ d ∧
    (writeChildlog s d).eventlog = s.eventlog := by
  unfold writeChildlog
  rw [h]
  exact ⟨rfl, rfl⟩

/-- A buffer of at most one token's length is retained whole: `log_output`
is the identity (Python's "not enough data" early return). -/
theorem log_output_short (s : OutputState)
    (hsh : s.logbuffer.length ≤ (currentToken s).length) :
    log_output s = s := by
  rw [log_output.eq_def]
  by_cases hnil : s.logbuffer = []
  · rw [if_pos hnil]
  · rw [if_neg hnil, if_pos hsh]

/-- When the token does not occur in an oversized buffer, `log_output`
retains the trailing `find_prefix_at_end` characters and flushes the rest
to `childlog`. -/
theorem log_output_noSplit (s : OutputState)
    (hlen : (currentToken s).length < s.logbuffer.length)
    (hnone : splitOnce (currentToken s) s.logbuffer = none) :
    log_output s = writeChildlog
      { s with logbuffer := s.logbuffer.drop (s.logbuffer.length -
          find_prefix_at_end s.logbuffer (currentToken s)) }
      (s.logbuffer.take (s.logbuffer.length -
          find_prefix_at_end s.logbuffer (currentToken s))) := by
  have hne : s.logbuffer ≠ [] := by
    intro he
    rw [he] at hlen
    simp at hlen
  rw [log_output.eq_def, if_neg hne, if_neg (Nat.not_le.mpr hlen)]
  split
  · rfl
  · next before after heq =>
      rw [hnone] at heq
      cases heq

/-- One split step of `log_output`: when the current token occurs in an
oversized buffer, the call toggles event mode, buffers the text after the
token, writes the text before it to the post-toggle childlog, and drains
the remainder recursively (a no-op when the remainder is empty). -/
theorem log_output_splitStep (s : OutputState) (before after : List Char)
    (hlen : (currentToken s).length < s.logbuffer.length)
    (hsplit : splitOnce (currentToken s) s.logbuffer = some (before, after)) :
    log_output s =
      if after = [] then
        writeChildlog { toggle_eventmode s with logbuffer := after } before
      else
        log_output
          (writeChildlog { toggle_eventmode s with logbuffer := after }
            before) := by
  have hne : s.logbuffer ≠ [] := by
    intro he
    rw [he] at hlen
    simp at hlen
  rw [log_output.eq_def, if_neg hne, if_neg (Nat.not_le.mpr hlen)]
  split
  · next heq =>
      rw [hsplit] at heq
      cases heq
  · next b a heq =>
      rw [hsplit] at heq
      injection heq with heq1
      injection heq1 with heqb heqa
      subst heqb
      subst heqa
      rfl

/-- Draining a non-capturing state whose buffer holds no BEGIN token
publishes nothing, keeps capture off, leaves the event log alone, and
splits the buffer between the main log and the retained tail; a buffer no
longer than one BEGIN token is left untouched. -/
theorem log_output_noBegin_main (q : OutputState)
    (hq1 : q.eventmode = false) (hq2 : q.childlogIsEvent = false)
    (hnotin : ∀ pre post, q.logbuffer ≠ pre ++ BEGIN_TOKEN ++ post) :
    (log_output q).events = q.events ∧
    (log_output q).eventmode = false ∧
    (log_output q).eventlog = q.eventlog ∧
    (log_output q).childlogIsEvent = false ∧
    (log_output q).mainlog ++ (log_output q).logbuffer =
      q.mainlog ++ q.logbuffer ∧
    (q.logbuffer.length ≤ BEGIN_TOKEN.length → log_output q = q) := by
  have htok : currentToken q = BEGIN_TOKEN := by
    simp [currentToken, hq1]
  by_cases hsh : q.logbuffer.length ≤ BEGIN_TOKEN.length
  · have hid : log_output q = q := log_output_short q (by rw [htok]; exact hsh)
    rw [hid]
    exact ⟨rfl, hq1, rfl, hq2, rfl, fun _ => rfl⟩
  · have hlen2 : (currentToken q).length < q.logbuffer.length := by
      rw [htok]
      omega
    have hnone : splitOnce (currentToken q) q.logbuffer = none := by
      rw [htok]
      exact (splitOnce_none_iff BEGIN_TOKEN (by decide) q.logbuffer).mpr hnotin
    have heq := log_output_noSplit q hlen2 hnone
    have hwmain := writeChildlog_main
      { q with logbuffer := q.logbuffer.drop (q.logbuffer.length -
          find_prefix_at_end q.logbuffer (currentToken q)) }
      (q.logbuffer.take (q.logbuffer.length -
          find_prefix_at_end q.logbuffer (currentToken q)))
      hq2
    refine ⟨?_, ?_, ?_, ?_, ?_, ?_⟩
    · rw [heq, writeChildlog_events]
    · rw [heq, writeChildlog_eventmode]
      exact hq1
    · rw [heq, hwmain.2]
    · rw [heq, writeChildlog_childlogIsEvent]
      exact hq2
    · rw [heq, writeChildlog_logbuffer, hwmain.1]
      rw [List.append_assoc, List.take_append_drop]
    · intro hc
      omega

/-- The scan of `fpeAux` never exceeds its starting length. -/
theorem fpeAux_le (h n : List Char) (k : Nat) : fpeAux h n k ≤ k := by
  induction k with
  | zero => simp [fpeAux]
  | succ k ih =>
      rw [fpeAux]
      split_ifs
      · exact Nat.le_refl _
      · exact Nat.le_trans ih (Nat.le_succ k)

/-- The prefix found by `fpeAux` really ends the haystack. -/
theorem fpeAux_isTail (h n : List Char) (k : Nat) :
    n.take (fpeAux h n k) <:+ h := by
  induction k with
  | zero =>
      rw [fpeAux]
      simp only [List.take_zero]
      exact List.nil_suffix
  | succ k ih =>
      rw [fpeAux]
      split_ifs with hs
      · simpa using hs
      · exact ih

/-- `fpeAux` finds the longest matching length below its start. -/
theorem fpeAux_max (h n : List Char) (k : Nat) :
    ∀ l, l ≤ k → n.take l <:+ h → l ≤ fpeAux h n k := by
  induction k with
  | zero =>
      intro l hl _
      omega
  | succ k ih =>
      intro l hl hsuf
      rw [fpeAux]
      split_ifs with hs
      · exact hl
      · rcases Nat.lt_or_ge l (k + 1) with hlt | hge
        · exact ih l (Nat.lt_succ_iff.mp hlt) hsuf
        · exfalso
          have hleq : l = k + 1 := by omega
          subst hleq
          exact hs (by simpa using hsuf)

/-- Discriminator for the failure outcomes of `spawn()`. -/
def SpawnResult.isFailure : SpawnResult → Bool
  | SpawnResult.forked _ => false
  | _ => true

/-- A sample configuration for concrete witnesses. -/
def sampleConfig : ProcessConfig :=
  { name := "cat", priority := 999, autostart := true, autorestart := true,
    startsecs := 10, startretries := 3, exitcodes := [0, 2],
    stopsignal := 15, stopwaitsecs := 10, eventlogfile := false }

/-- A sample never-started subprocess for concrete witnesses. -/
def sampleProc : Subprocess :=
  { config := sampleConfig, pid := 0, laststart := 0, laststop := 0,
    delay := 0, backoff := 0, killing := false,
    administrative_stop := false, system_stop := false,
    exitstatus := none, spawnerr := none }

/-- A sample running subprocess past its startup grace period. -/
def runningProc : Subprocess := { sampleProc with pid := 42, laststart := 10 }

/-- A sample subprocess in BACKOFF with two failed starts behind it. -/
def backoffProc : Subprocess :=
  { sampleProc with laststart := 10, delay := 50, backoff := 2 }

end Supervisord

namespace Supervisord

open ProcessState

/-- C1: `get_state()` realises the spec's derivation table, with rows
resolved in the order given: `laststart == 0` ⇒ STOPPED; else `killing` ⇒
STOPPING; else `system_stop` ⇒ FATAL; else `exitstatus` present ⇒ STOPPED
when `administrative_stop` and EXITED otherwise; else `delay ≠ 0` ⇒
STARTING when `pid ≠ 0` and BACKOFF when `pid == 0`; else `pid ≠ 0` ⇒
RUNNING; otherwise UNKNOWN. -/
theorem get_state_spec_table (p : Subprocess) :
    (p.laststart = 0 → p.get_state = STOPPED) ∧
    (p.laststart ≠ 0 → p.killing = true → p.get_state = STOPPING) ∧
    (p.laststart ≠ 0 → p.killing = false → p.system_stop = true →
      p.get_state = FATAL) ∧
    (p.laststart ≠ 0 → p.killing = false → p.system_stop = false →
      p.exitstatus.isSome → p.administrative_stop = true →
      p.get_state = STOPPED) ∧
    (p.laststart ≠ 0 → p.killing = false → p.system_stop = false →
      p.exitstatus.isSome → p.administrative_stop = false →
      p.get_state = EXITED) ∧
    (p.laststart ≠ 0 → p.killing = false → p.system_stop = false →
      p.exitstatus = none → p.delay ≠ 0 → p.pid ≠ 0 →
      p.get_state = STARTING) ∧
    (p.laststart ≠ 0 → p.killing = false → p.system_stop = false →
      p.exitstatus = none → p.delay ≠ 0 → p.pid = 0 →
      p.get_state = BACKOFF) ∧
    (p.laststart ≠ 0 → p.killing = false → p.system_stop = false →
      p.exitstatus = none → p.delay = 0 → p.pid ≠ 0 →
      p.get_state = RUNNING) ∧
    (p.laststart ≠ 0 → p.killing = false → p.system_stop = false →
      p.exitstatus = none → p.delay = 0 → p.pid = 0 →
      p.get_state = UNKNOWN) := by
  unfold Subprocess.get_state
  refine ⟨?_, ?_, ?_, ?_, ?_, ?_, ?_, ?_, ?_⟩ <;>
    intros <;> simp_all

/-- Closed witness for `get_state_spec_table`. -/
theorem get_state_spec_table_witness : sampleProc.get_state = STOPPED := by
  exact (get_state_spec_table sampleProc).1 (by decide)

/-- C10: `get_state()` is total — it always yields one of the eight states
(and is deterministic, being a function of the fields) — and resolves
overlapping conditions by precedence: never-started STOPPED beats
everything; STOPPING (killing) beats FATAL (system_stop); FATAL beats the
exitstatus-derived STOPPED/EXITED; and an exitstatus-derived state beats
STARTING/BACKOFF (delay) and RUNNING (pid). -/
theorem get_state_total_and_precedence (p : Subprocess) :
    (p.get_state = STOPPED ∨ p.get_state = STARTING ∨
     p.get_state = RUNNING ∨ p.get_state = BACKOFF ∨
     p.get_state = STOPPING ∨ p.get_state = EXITED ∨
     p.get_state = FATAL ∨ p.get_state = UNKNOWN) ∧
    (p.laststart = 0 → p.get_state = STOPPED) ∧
    (p.laststart ≠ 0 → p.killing = true → p.system_stop = true →
      p.get_state = STOPPING) ∧
    (p.laststart ≠ 0 → p.killing = false → p.system_stop = true →
      p.exitstatus.isSome → p.get_state = FATAL) ∧
    (p.laststart ≠ 0 → p.killing = false → p.system_stop = false →
      p.exitstatus.isSome → p.delay ≠ 0 →
      (p.get_state = STOPPED ∨ p.get_state = EXITED)) ∧
    (p.laststart ≠ 0 → p.killing = false → p.system_stop = false →
      p.exitstatus.isSome → p.pid ≠ 0 →
      (p.get_state = STOPPED ∨ p.get_state = EXITED)) := by
  refine ⟨?_, ?_, ?_, ?_, ?_, ?_⟩
  · unfold Subprocess.get_state
    split_ifs <;> simp
  · intro h1
    simp [Subprocess.get_state, h1]
  · intro h1 h2 h3
    simp [Subprocess.get_state, h1, h2]
  · intro h1 h2 h3 h4
    simp [Subprocess.get_state, h1, h2, h3]
  · intro h1 h2 h3 h4 h5
    by_cases h7 : p.administrative_stop <;>
      simp [Subprocess.get_state, h1, h2, h3, h4, h7]
  · intro h1 h2 h3 h4 h5
    by_cases h7 : p.administrative_stop <;>
      simp [Subprocess.get_state, h1, h2, h3, h4, h7]

/-- Closed witness for `get_state_total_and_precedence`. -/
theorem get_state_total_and_precedence_witness :
    ({ sampleProc with laststart := 5, killing := true,
                       system_stop := true } : Subprocess).get_state
      = STOPPING := by
  exact (get_state_total_and_precedence _).2.2.1 (by decide) (by decide)
    (by decide)

/-- C2: `finish(pid, sts)`: when `killing`, the kill flag and delay are
cleared and the exit status recorded (STOPPED when the stop was
administrative); else an exit with a code in `exitcodes` after at least
`startsecs` clears `delay`, resets `backoff` and records the status
(EXITED when not administratively stopped); otherwise (too quick or bad
code) `backoff` is incremented, `delay := now + backoff`, and the derived
state is BACKOFF. -/
theorem finish_classification (p : Subprocess) (now es : Int)
    (hls : p.laststart ≠ 0) (hsys : p.system_stop = false)
    (hnow : 0 < now) (hb : 0 ≤ p.backoff) :
    (p.killing = true →
      (p.finish now es).killing = false ∧ (p.finish now es).delay = 0 ∧
      (p.finish now es).exitstatus = some es ∧
      (p.administrative_stop = true →
        (p.finish now es).get_state = STOPPED)) ∧
    (p.killing = false → es ∈ p.config.exitcodes →
      p.config.startsecs ≤ now - p.laststart →
      (p.finish now es).delay = 0 ∧ (p.finish now es).backoff = 0 ∧
      (p.finish now es).exitstatus = some es ∧
      (p.administrative_stop = false →
        (p.finish now es).get_state = EXITED)) ∧
    (p.killing = false →
      (es ∉ p.config.exitcodes ∨ now - p.laststart < p.config.startsecs) →
      (p.finish now es).backoff = p.backoff + 1 ∧
      (p.finish now es).delay = now + (p.backoff + 1) ∧
      (p.finish now es).exitstatus = none ∧
      (p.finish now es).get_state = BACKOFF) := by
  refine ⟨?_, ?_, ?_⟩
  · intro hk
    refine ⟨?_, ?_, ?_, ?_⟩
    · simp [Subprocess.finish, hk]
    · simp [Subprocess.finish, hk]
    · simp [Subprocess.finish, hk]
    · intro ha
      simp [Subprocess.finish, Subprocess.get_state, hk, hls, hsys, ha]
  · intro hk hcode helapsed
    have hexp : ¬(now - p.laststart < p.config.startsecs ∨
        es ∉ p.config.exitcodes) := by
      push_neg
      exact ⟨by omega, hcode⟩
    refine ⟨?_, ?_, ?_, ?_⟩
    · simp [Subprocess.finish, hk, hexp]
    · simp [Subprocess.finish, hk, hexp]
    · simp [Subprocess.finish, hk, hexp]
    · intro ha
      simp [Subprocess.finish, Subprocess.get_state, hk, hexp, hls, hsys, ha]
  · intro hk hune
    have h3 : now - p.laststart < p.config.startsecs ∨
        es ∉ p.config.exitcodes := by
      tauto
    have hdelay : ¬(now + (p.backoff + 1) = 0) := by omega
    refine ⟨?_, ?_, ?_, ?_⟩
    · simp [Subprocess.finish, hk, not_not_intro h3]
    · simp [Subprocess.finish, hk, not_not_intro h3]
    · simp [Subprocess.finish, hk, not_not_intro h3]
    · simp [Subprocess.finish, Subprocess.get_state, hk, not_not_intro h3,
        hls, hsys, hdelay]

/-- Closed witness for `finish_classification`: an unexpected exit of a
running process lands in BACKOFF. -/
theorem finish_classification_witness :
    (({ sampleProc with pid := 42, laststart := 10 } : Subprocess).finish
        100 7).get_state = BACKOFF := by
  exact ((finish_classification { sampleProc with pid := 42, laststart := 10 }
      100 7 (by decide) (by decide) (by decide) (by decide)).2.2
    (by decide) (by decide)).2.2.2

/-- C3 counterexample: the spawn-failure message for a fork failing with
EAGAIN is "Too many processes in process table to spawn 'cat'", not the
claimed "too many processes in process table". -/
theorem spawn_eagain_message_counterexample :
    (sampleProc.spawn 100 (SpawnResult.forkError EAGAIN)).proc.spawnerr =
      some "Too many processes in process table to spawn 'cat'" ∧
    (sampleProc.spawn 100 (SpawnResult.forkError EAGAIN)).proc.spawnerr ≠
      some "too many processes in process table" := by
  constructor <;> decide

/-- C3 (amended): every failed spawn attempt sets `spawnerr` to the
prescribed message — EMFILE yields "too many open files to spawn 'X'",
EAGAIN yields "Too many processes in process table to spawn 'X'", a
`check_execv_args` failure yields its message — increments `backoff` by
exactly 1, sets `delay = now + backoff`, records no child pid (`pid`
stays 0, nothing enters `pidhistory`) and returns `None`. -/
theorem spawn_failure_effects (p : Subprocess) (now : Int)
    (hpid : p.pid = 0) :
    ((p.spawn now (SpawnResult.pipeError EMFILE)).proc.spawnerr =
      some ("too many open files to spawn " ++ pyrepr p.config.name)) ∧
    ((p.spawn now (SpawnResult.forkError EAGAIN)).proc.spawnerr =
      some ("Too many processes in process table to spawn "
            ++ pyrepr p.config.name)) ∧
    (∀ msg, (p.spawn now (SpawnResult.checkFail msg)).proc.spawnerr =
      some msg) ∧
    (∀ res, res.isFailure = true →
      (p.spawn now res).proc.backoff = p.backoff + 1 ∧
      (p.spawn now res).proc.delay = now + (p.backoff + 1) ∧
      (p.spawn now res).proc.pid = 0 ∧
      (p.spawn now res).ret = none ∧
      (p.spawn now res).pidhistoryAdd = none) := by
  refine ⟨?_, ?_, ?_, ?_⟩
  · simp [Subprocess.spawn, Subprocess.record_spawnerr, hpid, EMFILE]
  · simp [Subprocess.spawn, Subprocess.record_spawnerr, hpid, EAGAIN]
  · intro msg
    simp [Subprocess.spawn, Subprocess.record_spawnerr, hpid]
  · intro res hres
    cases res <;> simp_all [Subprocess.spawn, Subprocess.record_spawnerr,
      SpawnResult.isFailure, hpid]

/-- Closed witness for `spawn_failure_effects`. -/
theorem spawn_failure_effects_witness :
    (sampleProc.spawn 100 (SpawnResult.pipeError EMFILE)).proc.spawnerr =
      some "too many open files to spawn 'cat'" := by
  have h := (spawn_failure_effects sampleProc 100 (by decide)).1
  simpa [sampleProc, sampleConfig, pyrepr] using h

/-- C6 counterexample: `stop()` of a STOPPED process is not a pure no-op
with success — it flips `administrative_stop` from 0 to 1 and returns an
error message (though it indeed sends no signal). -/
theorem stop_stopped_counterexample :
    sampleProc.get_state = STOPPED ∧
    sampleProc.administrative_stop = false ∧
    (sampleProc.stop 100 none).proc.administrative_stop = true ∧
    (sampleProc.stop 100 none).result.isSome = true ∧
    (sampleProc.stop 100 none).sent = [] := by
  refine ⟨?_, ?_, ?_, ?_, ?_⟩ <;> decide

/-- C6 (amended): `stop()` of a process with no live child (`pid == 0`, in
particular one whose derived state is STOPPED or FATAL) sends no signal,
changes no field except setting `administrative_stop`, leaves the derived
STOPPED/FATAL state unchanged, and returns an error message string rather
than success. -/
theorem stop_dead_process (p : Subprocess) (now : Int) (r : Option String)
    (hpid : p.pid = 0) :
    (p.stop now r).proc = { p with administrative_stop := true } ∧
    (p.stop now r).sent = [] ∧
    (p.stop now r).result.isSome = true ∧
    (p.get_state = STOPPED ∨ p.get_state = FATAL →
      (p.stop now r).proc.get_state = p.get_state) := by
  refine ⟨?_, ?_, ?_, ?_⟩
  · simp [Subprocess.stop, Subprocess.kill, hpid]
  · simp [Subprocess.stop, Subprocess.kill, hpid]
  · simp [Subprocess.stop, Subprocess.kill, hpid]
  · intro h
    have hproc : (p.stop now r).proc = { p with administrative_stop := true } := by
      simp [Subprocess.stop, Subprocess.kill, hpid]
    rw [hproc]
    by_cases h1 : p.laststart = 0 <;> by_cases h2 : p.killing <;>
      by_cases h3 : p.system_stop <;> by_cases h4 : p.exitstatus.isSome <;>
      by_cases h5 : p.administrative_stop <;> by_cases h6 : p.delay = 0 <;>
      simp_all [Subprocess.get_state]

/-- Closed witness for `stop_dead_process`. -/
theorem stop_dead_process_witness :
    (sampleProc.stop 100 none).sent = [] := by
  exact (stop_dead_process sampleProc 100 none (by decide)).2.1

/-- C7 counterexample: `kill(sig)` passes the positive child pid to
`os.kill`, not the (negated) process group: for a child with pid 42 the
arguments are `(42, sig)`, not `(-42, sig)`. -/
theorem kill_pgroup_counterexample :
    (runningProc.kill 100 15 none).sent = [(42, 15)] ∧
    (runningProc.kill 100 15 none).sent ≠ [(-42, 15)] := by
  constructor <;> decide

/-- C7 (amended): with a live child, `kill(sig)` sends `sig` to the child
pid itself (`os.kill(pid, sig)`, not the process group), sets `killing`
and arms `delay = now + stopwaitsecs`, and returns `None`; if `os.kill`
raises, the error is converted to a returned message string (no exception
propagates) and no signal is delivered. -/
theorem kill_sends_to_pid (p : Subprocess) (now sig : Int)
    (hpid : p.pid ≠ 0) :
    ((p.kill now sig none).sent = [(p.pid, sig)] ∧
     (p.kill now sig none).result = none ∧
     (p.kill now sig none).proc.killing = true ∧
     (p.kill now sig none).proc.delay = now + p.config.stopwaitsecs) ∧
    (∀ tb, (p.kill now sig (some tb)).result.isSome = true ∧
      (p.kill now sig (some tb)).sent = []) := by
  constructor
  · refine ⟨?_, ?_, ?_, ?_⟩ <;> simp [Subprocess.kill, hpid]
  · intro tb
    constructor <;> simp [Subprocess.kill, hpid]

/-- Closed witness for `kill_sends_to_pid`. -/
theorem kill_sends_to_pid_witness :
    (runningProc.kill 100 15 none).result = none := by
  exact (kill_sends_to_pid runningProc 100 15 (by decide)).1.2.1

/-- C9: `spawn()` under its precondition (`pid == 0`) clears `killing`,
`exitstatus`, `system_stop` and `administrative_stop` and stamps
`laststart = now` before anything that can fail, so after any failed
attempt the derived state is BACKOFF — never STOPPED, EXITED or FATAL —
with `spawnerr` set and `pid` still 0. -/
theorem spawn_failure_state_backoff (p : Subprocess) (now : Int)
    (res : SpawnResult) (hpid : p.pid = 0) (hnow : 0 < now)
    (hb : 0 ≤ p.backoff) (hfail : res.isFailure = true) :
    (p.spawn now res).proc.killing = false ∧
    (p.spawn now res).proc.exitstatus = none ∧
    (p.spawn now res).proc.system_stop = false ∧
    (p.spawn now res).proc.administrative_stop = false ∧
    (p.spawn now res).proc.laststart = now ∧
    (p.spawn now res).proc.spawnerr.isSome = true ∧
    (p.spawn now res).proc.pid = 0 ∧
    (p.spawn now res).proc.get_state = BACKOFF := by
  have hn0 : ¬(now = 0) := by omega
  have hd : ¬(now + (p.backoff + 1) = 0) := by omega
  cases res <;> simp_all [Subprocess.spawn, Subprocess.record_spawnerr,
    Subprocess.get_state, SpawnResult.isFailure, hpid, hn0, hd]

/-- C4: when the current framing token does not occur in an oversized
buffer, `log_output` retains exactly the longest tail of the buffer that
is a proper prefix of the token (nothing of it reaches the sink), flushes
exactly the remaining leading part — which contains no complete token —
and `find_prefix_at_end(haystack, needle)` returns the length of the
longest proper prefix of `needle` that is a suffix of `haystack`. -/
theorem log_output_token_retention (s : OutputState)
    (hlen : (currentToken s).length < s.logbuffer.length)
    (hnotin : ∀ pre post, s.logbuffer ≠ pre ++ currentToken s ++ post) :
    ((log_output s).logbuffer =
      (currentToken s).take
        (find_prefix_at_end s.logbuffer (currentToken s)) ∧
     log_output s = writeChildlog
      { s with logbuffer := s.logbuffer.drop (s.logbuffer.length -
          find_prefix_at_end s.logbuffer (currentToken s)) }
      (s.logbuffer.take (s.logbuffer.length -
          find_prefix_at_end s.logbuffer (currentToken s))) ∧
     (s.logbuffer.take (s.logbuffer.length -
          find_prefix_at_end s.logbuffer (currentToken s)))
       ++ (log_output s).logbuffer = s.logbuffer ∧
     ∀ pre post,
       s.logbuffer.take (s.logbuffer.length -
           find_prefix_at_end s.logbuffer (currentToken s))
         ≠ pre ++ currentToken s ++ post) ∧
    (∀ haystack needle : List Char, needle ≠ [] →
      find_prefix_at_end haystack needle < needle.length ∧
      needle.take (find_prefix_at_end haystack needle) <:+ haystack ∧
      ∀ l, l < needle.length → needle.take l <:+ haystack →
        l ≤ find_prefix_at_end haystack needle) := by
  have htok := currentToken_ne_nil s
  have hnone : splitOnce (currentToken s) s.logbuffer = none :=
    (splitOnce_none_iff (currentToken s) htok s.logbuffer).mpr hnotin
  have heq := log_output_noSplit s hlen hnone
  set tok := currentToken s with htokdef
  set r := find_prefix_at_end s.logbuffer tok with hrdef
  have hr : r < tok.length := by
    have h1 := fpeAux_le s.logbuffer tok (tok.length - 1)
    have h2 : 0 < tok.length := List.length_pos.mpr htok
    rw [hrdef]
    unfold find_prefix_at_end
    omega
  have hsuf : tok.take r <:+ s.logbuffer := by
    rw [hrdef]
    exact fpeAux_isTail s.logbuffer tok (tok.length - 1)
  have hlt : (tok.take r).length = r := by
    rw [List.length_take]
    omega
  obtain ⟨t, ht⟩ := hsuf
  have hlenbuf : s.logbuffer.length = t.length + r := by
    rw [← ht, List.length_append, hlt]
  have hdrop0 : t.length + r - r = t.length := by
    omega
  have hdropbuf : s.logbuffer.drop (s.logbuffer.length - r) = tok.take r := by
    rw [hlenbuf, hdrop0, ← ht, List.drop_left]
  have hbuf : (log_output s).logbuffer = tok.take r := by
    rw [heq, writeChildlog_logbuffer]
    exact hdropbuf
  refine ⟨⟨hbuf, heq, ?_, ?_⟩, ?_⟩
  · rw [hbuf, hlenbuf, hdrop0, ← ht, List.take_left]
  · intro pre post habs
    have hcat := List.take_append_drop (s.logbuffer.length - r) s.logbuffer
    rw [habs, hdropbuf] at hcat
    exact hnotin pre (post ++ tok.take r)
      (by rw [← hcat]; simp [List.append_assoc])
  · intro haystack needle hn
    have hpos : 0 < needle.length := List.length_pos.mpr hn
    refine ⟨?_, fpeAux_isTail haystack needle (needle.length - 1), ?_⟩
    · have h1 := fpeAux_le haystack needle (needle.length - 1)
      unfold find_prefix_at_end
      omega
    · intro l hl hsufl
      exact fpeAux_max haystack needle (needle.length - 1) l (by omega) hsufl

/-- A concrete output state whose buffer ends in a split BEGIN token. -/
def partialTokenState : OutputState :=
  { name := "cat", eventmode := false,
    logbuffer := "some program output<!--XSUPER".toList,
    eventlogfile := false, childlogIsEvent := false,
    mainlog := [], eventlog := [], events := [] }

/-- Closed witness for `log_output_token_retention`: a buffer ending in a
split BEGIN token retains exactly that partial token. -/
theorem log_output_token_retention_witness :
    (log_output partialTokenState).logbuffer = "<!--XSUPER".toList := by
  have h := (log_output_token_retention partialTokenState
    (by decide)
    ((splitOnce_none_iff _ (by decide) _).mp (by decide))).1.1
  rw [h]
  decide

/-- A concrete capturing state with no event log file configured. -/
def noEventfileState : OutputState :=
  { name := "cat", eventmode := true,
    logbuffer := END_TOKEN ++ "xyz".toList,
    eventlogfile := false, childlogIsEvent := false,
    mainlog := [], eventlog := "payload".toList, events := [] }

/-- A concrete capturing state, event log file configured, whose buffer
closes the current frame and holds one further complete frame. -/
def twoFrameState : OutputState :=
  { name := "cat", eventmode := true,
    logbuffer := END_TOKEN ++ BEGIN_TOKEN ++ END_TOKEN ++ "!".toList,
    eventlogfile := true, childlogIsEvent := true,
    mainlog := [], eventlog := "E0".toList, events := [] }

/-- First intermediate state of draining `twoFrameState` (the first END
has been consumed). -/
def twoFrameMid1 : OutputState :=
  writeChildlog
    { toggle_eventmode twoFrameState with
        logbuffer := BEGIN_TOKEN ++ END_TOKEN ++ "!".toList } []

/-- Second intermediate state (the BEGIN has been consumed). -/
def twoFrameMid2 : OutputState :=
  writeChildlog
    { toggle_eventmode twoFrameMid1 with
        logbuffer := END_TOKEN ++ "!".toList } []

/-- Third intermediate state (the second END has been consumed). -/
def twoFrameMid3 : OutputState :=
  writeChildlog
    { toggle_eventmode twoFrameMid2 with logbuffer := "!".toList } []

/-- C5 counterexample, two parts.  (a) The END token is found while
capturing, but since no event log file is configured, no
`ProcessCommunicationEvent` is published at all — against the claim's
"exactly one".  (b) With an event log file configured, a single
`log_output` call on a buffer holding an END and a further complete
BEGIN…END frame publishes two events — again against "exactly one". -/
theorem comm_event_counterexample :
    (noEventfileState.eventmode = true ∧
     splitOnce END_TOKEN noEventfileState.logbuffer =
       some ([], "xyz".toList) ∧
     (log_output noEventfileState).events = []) ∧
    (twoFrameState.eventmode = true ∧
     twoFrameState.eventlogfile = true ∧
     (log_output twoFrameState).events.length = 2) := by
  constructor
  · refine ⟨rfl, by decide, ?_⟩
    rw [log_output.eq_def]
    rw [if_neg (by decide), if_neg (by decide)]
    split
    · next heq =>
        exfalso
        have hx : splitOnce (currentToken noEventfileState)
            noEventfileState.logbuffer = some ([], "xyz".toList) := by decide
        rw [hx] at heq
        cases heq
    · next before after heq =>
        have hx : splitOnce (currentToken noEventfileState)
            noEventfileState.logbuffer = some ([], "xyz".toList) := by decide
        rw [hx] at heq
        injection heq with heq1
        injection heq1 with heqb heqa
        subst heqb
        subst heqa
        rw [if_neg (by decide)]
        rw [log_output_short _ (by decide)]
        decide
  · refine ⟨rfl, rfl, ?_⟩
    have h1 := log_output_splitStep twoFrameState []
      (BEGIN_TOKEN ++ END_TOKEN ++ "!".toList) (by decide) (by decide)
    rw [if_neg (by decide)] at h1
    have h2 := log_output_splitStep twoFrameMid1 []
      (END_TOKEN ++ "!".toList) (by decide) (by decide)
    rw [if_neg (by decide)] at h2
    have h3 := log_output_splitStep twoFrameMid2 [] ("!".toList)
      (by decide) (by decide)
    rw [if_neg (by decide)] at h3
    rw [h1]
    show (log_output twoFrameMid1).events.length = 2
    rw [h2]
    show (log_output twoFrameMid2).events.length = 2
    rw [h3]
    show (log_output twoFrameMid3).events.length = 2
    rw [log_output_short twoFrameMid3 (by decide)]
    decide

/-- C5 (amended): when `log_output` finds the END token while capturing,
an event log file is configured, and the remainder after that END
contains no BEGIN token, exactly one `ProcessCommunicationEvent` is
published by the call; it carries the process name and the payload read
back from the capture file, truncated to the fixed 2MB bound (`1 << 21`
bytes); capture mode ends and the capture file is cleared.  The text
preceding the END goes to the log selected after the toggle (the main
log), and what reaches the main log together with what stays buffered
reassembles that text plus the whole remainder; when the remainder is no
longer than one BEGIN token it stays buffered untouched. -/
theorem end_token_event (s : OutputState) (before after : List Char)
    (hmode : s.eventmode = true) (hfile : s.eventlogfile = true)
    (hsplit : splitOnce END_TOKEN s.logbuffer = some (before, after))
    (hlen : END_TOKEN.length < s.logbuffer.length)
    (hnoBegin : ∀ pre post, after ≠ pre ++ BEGIN_TOKEN ++ post) :
    (log_output s).events =
      s.events ++ [(s.name, s.eventlog.take (1 <<< 21))] ∧
    (log_output s).eventmode = false ∧
    (log_output s).eventlog = [] ∧
    (log_output s).childlogIsEvent = false ∧
    (log_output s).mainlog ++ (log_output s).logbuffer =
      s.mainlog ++ before ++ after ∧
    (after.length ≤ BEGIN_TOKEN.length →
      (log_output s).mainlog = s.mainlog ++ before ∧
      (log_output s).logbuffer = after) := by
  have htok : currentToken s = END_TOKEN := by
    simp [currentToken, hmode]
  have hlen' : (currentToken s).length < s.logbuffer.length := by
    rw [htok]
    exact hlen
  have hsplit' : splitOnce (currentToken s) s.logbuffer =
      some (before, after) := by
    rw [htok]
    exact hsplit
  have hstep := log_output_splitStep s before after hlen' hsplit'
  have hs2 : writeChildlog
      { toggle_eventmode s with logbuffer := after } before =
      { s with eventmode := false, logbuffer := after,
               mainlog := s.mainlog ++ before,
               eventlog := [], childlogIsEvent := false,
               events := s.events ++
                 [(s.name, s.eventlog.take (1 <<< 21))] } := by
    simp [toggle_eventmode, writeChildlog, hmode, hfile]
  rw [hs2] at hstep
  set q : OutputState :=
    { s with eventmode := false, logbuffer := after,
             mainlog := s.mainlog ++ before,
             eventlog := [], childlogIsEvent := false,
             events := s.events ++
               [(s.name, s.eventlog.take (1 <<< 21))] } with hqdef
  have hq1 : q.eventmode = false := by rw [hqdef]
  have hq2 : q.childlogIsEvent = false := by rw [hqdef]
  have hqbuf : q.logbuffer = after := by rw [hqdef]
  have hmain := log_output_noBegin_main q hq1 hq2
    (by simp only [hqbuf]; exact hnoBegin)
  have hcollapse : log_output s = log_output q := by
    rw [hstep]
    split_ifs with h
    · exact (hmain.2.2.2.2.2 (by simp [hqbuf, h])).symm
    · rfl
  rw [hcollapse]
  refine ⟨?_, hmain.2.1, ?_, hmain.2.2.2.1, ?_, ?_⟩
  · rw [hmain.1, hqdef]
  · rw [hmain.2.2.1, hqdef]
  · rw [hmain.2.2.2.2.1, hqdef]
  · intro hc
    have hid := hmain.2.2.2.2.2 (by rw [hqbuf]; exact hc)
    rw [hid, hqdef]
    exact ⟨rfl, rfl⟩

/-- A concrete capturing state with an event log file configured. -/
def captureState : OutputState :=
  { name := "cat", eventmode := true,
    logbuffer := END_TOKEN ++ "z".toList,
    eventlogfile := true, childlogIsEvent := true,
    mainlog := "m".toList, eventlog := "pq".toList, events := [] }

/-- Closed witness for `end_token_event`. -/
theorem end_token_event_witness :
    (log_output captureState).events =
      captureState.events ++
        [(captureState.name, captureState.eventlog.take (1 <<< 21))] := by
  exact (end_token_event captureState [] "z".toList rfl rfl (by decide)
    (by decide)
    ((splitOnce_none_iff BEGIN_TOKEN (by decide) "z".toList).mp
      (by decide))).1

/-- C8 counterexample: `backoff` also increases on a bad-exit-code death
that was not too quick (`finish` of a process up for 90s with
`startsecs = 10` and exit code 7 ∉ exitcodes), and is also reset to 0 on
the BACKOFF → FATAL fast-forward in `stop_all()` — neither a promotion to
RUNNING nor an expected EXITED. -/
theorem backoff_policy_counterexample :
    ((runningProc.finish 100 7).backoff = runningProc.backoff + 1 ∧
     ¬(100 - runningProc.laststart < runningProc.config.startsecs)) ∧
    (backoffProc.get_state = BACKOFF ∧ backoffProc.backoff = 2 ∧
     (stopAllStep 100 none backoffProc).proc.backoff = 0 ∧
     (stopAllStep 100 none backoffProc).proc.get_state = FATAL) := by
  refine ⟨⟨?_, ?_⟩, ?_, ?_, ?_, ?_⟩ <;> decide

/-- C8 (amended): across `finish`, `record_spawnerr`/`spawn`, `transition`
and `stop_all`, `backoff` increases (by exactly 1) exactly on a spawn
failure or an unexpected exit — an exit that was too quick OR had a bad
exit code, with no stop pending; and it is reset to 0 exactly on a
promotion to RUNNING, an expected EXITED, or the BACKOFF → FATAL
transitions of `transition()` and `stop_all()`; it is unchanged
otherwise. -/
theorem backoff_policy (p : Subprocess) (now es : Int) (msg : String)
    (r : Option String) :
    ((p.finish now es).backoff =
      if p.killing then p.backoff
      else if now - p.laststart < p.config.startsecs ∨
          es ∉ p.config.exitcodes then p.backoff + 1
      else 0) ∧
    ((p.record_spawnerr now msg).backoff = p.backoff + 1) ∧
    (p.pid = 0 →
      (p.spawn now (SpawnResult.checkFail msg)).proc.backoff =
        p.backoff + 1) ∧
    (p.pid = 0 → ∀ cpid,
      (p.spawn now (SpawnResult.forked cpid)).proc.backoff = p.backoff) ∧
    ((transitionStep now p).backoff =
      if p.get_state = BACKOFF ∧ p.config.startretries < p.backoff then 0
      else if p.get_state = STARTING ∧
          p.config.startsecs < now - p.laststart then 0
      else p.backoff) ∧
    ((stopAllStep now r p).proc.backoff =
      if p.get_state = BACKOFF then 0 else p.backoff) := by
  refine ⟨?_, ?_, ?_, ?_, ?_, ?_⟩
  · by_cases hk : p.killing
    · simp [Subprocess.finish, hk]
    · by_cases hu : now - p.laststart < p.config.startsecs ∨
          es ∉ p.config.exitcodes
      · simp [Subprocess.finish, hk, hu, not_not_intro hu]
      · simp [Subprocess.finish, hk, hu]
  · simp [Subprocess.record_spawnerr]
  · intro hpid
    simp [Subprocess.spawn, Subprocess.record_spawnerr, hpid]
  · intro hpid cpid
    simp [Subprocess.spawn, hpid]
  · cases h : p.get_state <;>
      simp only [transitionStep, h] <;> split_ifs <;> simp_all
  · cases h : p.get_state <;>
      simp only [stopAllStep, h, Subprocess.stop, Subprocess.kill] <;>
      cases r <;> split_ifs <;> simp_all

/-- Closed witness for `backoff_policy`. -/
theorem backoff_policy_witness :
    (sampleProc.spawn 100 (SpawnResult.checkFail "no such file")).proc.backoff
      = sampleProc.backoff + 1 := by
  exact (backoff_policy sampleProc 100 0 "no such file" none).2.2.1
    (by decide)

/-- Closed witness for `spawn_failure_state_backoff`. -/
theorem spawn_failure_state_backoff_witness :
    (sampleProc.spawn 100 (SpawnResult.checkFail "can't find command")).proc.get_state
      = BACKOFF := by
  exact (spawn_failure_state_backoff sampleProc 100
    (SpawnResult.checkFail "can't find command") (by decide) (by decide)
    (by decide) (by decide)).2.2.2.2.2.2.2

end Supervisord
